import Mathlib

/-
Verification of the session/lifecycle manager of the PyLoxone integration
(custom_components/loxone/miniserver.py) against its specification.

The Python module is shallowly embedded: JSON documents become an inductive
`JsonValue`, Python runtime values carried by bus events become `PyVal`,
Python exceptions become `PyExc`, and fallible Python code becomes
`Except PyExc`-valued Lean functions.  External collaborators (the config
fetcher `LoxApp.getJson` and the websocket transport `LoxWs`) are modelled
by passing their outcomes in as explicit parameters; transport send calls
are recorded in a trace (`List Call`).
-/

namespace PyLoxone

/-- Python exceptions relevant to the embedded code paths. -/
inductive PyExc where
  | connectionError
  | attributeError
  | keyError
  | typeError
  | valueError
  | otherError
  deriving DecidableEq, Repr

/-- A JSON-like value, the shape of the Loxone structure document. -/
inductive JsonValue where
  | null
  | bool (b : Bool)
  | int (i : Int)
  | str (s : String)
  | list (xs : List JsonValue)
  | obj (kvs : List (String × JsonValue))
  deriving Repr

/-- A Python runtime value as carried by bus-event payloads. -/
inductive PyVal where
  | none
  | bool (b : Bool)
  | int (i : Int)
  | str (s : String)
  | dict (kvs : List (String × PyVal))
  deriving Repr

/-- Python `v == n` for an integer literal `n` (as in `request_code == 200`
and `res == -1`): ints compare by value, bools compare as 0/1, and every
other type compares unequal to an int. -/
def pyEqIntLit (v : PyVal) (n : Int) : Bool :=
  match v with
  | .int i => i == n
  | .bool b => (if b then (1 : Int) else 0) == n
  | _ => false

/-- Python `v == s` for a string literal `s` (as in `request_code == "200"`):
only strings compare equal to a string. -/
def pyEqStrLit (v : PyVal) (s : String) : Bool :=
  match v with
  | .str t => t == s
  | _ => false

/-- Python truthiness, as used by `if not res`. -/
def pyTruthy (v : PyVal) : Bool :=
  match v with
  | .none => false
  | .bool b => b
  | .int i => !(i == 0)
  | .str s => !(s == "")
  | .dict kvs => !kvs.isEmpty

/-- Python `d.get(key, default)` on a dict payload. -/
def dictGet (kvs : List (String × PyVal)) (k : String) (dflt : PyVal) : PyVal :=
  match kvs.find? (fun kv => kv.1 == k) with
  | some kv => kv.2
  | Option.none => dflt

/-- Python subscripting `v[k]` with a string key: succeeds only on a dict
(`obj`); a missing key raises `KeyError`; any non-dict value raises
`TypeError`. -/
def pyIndex (v : JsonValue) (k : String) : Except PyExc JsonValue :=
  match v with
  | .obj kvs =>
    match kvs.find? (fun kv => kv.1 == k) with
    | some kv => .ok kv.2
    | Option.none => .error .keyError
  | _ => .error .typeError

/-- Python `str(x)` / `repr(x)` rendering of a decoded JSON value, in
`repr` form: strings are quoted, containers render their elements
recursively (Python quoting of strings containing quotes is not modelled;
no embedded code path reaches that case). -/
def jsonRepr : JsonValue → String
  | .null => "None"
  | .bool true => "True"
  | .bool false => "False"
  | .int i => toString i
  | .str s => "'" ++ s ++ "'"
  | .list xs => "[" ++ String.intercalate ", " (xs.attach.map (fun x => jsonRepr x.1)) ++ "]"
  | .obj kvs =>
      "\x7b" ++
        String.intercalate ", "
          (kvs.attach.map (fun kv => "'" ++ kv.1.1 ++ "': " ++ jsonRepr kv.1.2)) ++
      "\x7d"
decreasing_by
  all_goals simp_wf
  all_goals try (have hx := List.sizeOf_lt_of_mem x.2; omega)
  all_goals
    (have h1 := List.sizeOf_lt_of_mem kv.2
     rcases kv with ⟨⟨a, b⟩, hm⟩
     simp at h1 ⊢
     omega)

/-- Python `str(x)` of a decoded JSON value: scalars render in `str` form,
containers fall back to their `repr`. -/
def jsonStr (v : JsonValue) : String :=
  match v with
  | .null => "None"
  | .bool true => "True"
  | .bool false => "False"
  | .int i => toString i
  | .str s => s
  | .list xs => jsonRepr (.list xs)
  | .obj kvs => jsonRepr (.obj kvs)

/-- Python iteration `for x in v`: a list yields its elements, a string
yields its one-character substrings, a dict yields its keys; any other
value raises `TypeError`. -/
def pyIterate (v : JsonValue) : Except PyExc (List JsonValue) :=
  match v with
  | .list xs => .ok xs
  | .str s => .ok (s.data.map (fun c => .str (String.singleton c)))
  | .obj kvs => .ok (kvs.map (fun kv => .str kv.1))
  | _ => .error .typeError

/-- Modelled from the spec: the bus-event payload attribute names and the
default sentinel (`ATTR_VALUE`, `ATTR_UUID`, `ATTR_CODE`, `DEFAULT`) and the
two command event types (`SENDDOMAIN`, `SECUREDSENDDOMAIN`) come from the
repository's `const` module, which is not part of the verified sources; the
spec fixes only that they are defined constants with the plain and secured
command domains distinct.  Concrete values are chosen here as
representatives. -/
def ATTR_VALUE : String := "value"

/-- Payload key for the target device id (see `ATTR_VALUE`). -/
def ATTR_UUID : String := "uuid"

/-- Payload key for the authorization code (see `ATTR_VALUE`). -/
def ATTR_CODE : String := "code"

/-- Default sentinel substituted for absent payload fields
(see `ATTR_VALUE`). -/
def DEFAULT : PyVal := .str "default"

/-- Bus event type of a plain command (see `ATTR_VALUE`). -/
def SENDDOMAIN : String := "loxone_send"

/-- Bus event type of a secured command (see `ATTR_VALUE`). -/
def SECUREDSENDDOMAIN : String := "loxone_send_secured"

/-- The websocket transport handle (`LoxWs`); only the mutable
`message_call_back` slot written by `async_set_callback` is represented.
Inbound-message callbacks are identified by a number. -/
structure Api where
  message_call_back : Option Nat := Option.none
  deriving Repr

/-- The config-fetcher object (`LoxApp`); only its `json` attribute, read by
the identity accessors, is represented.  `json` is `Option`-valued because a
fresh `LoxApp` has no structure document yet. -/
structure LoxConfig where
  json : Option JsonValue
  deriving Repr

/-- The `MiniServer` state set up by `__init__`: `lox_config`, `api` and
`callback` all start as `None`.  (The `hass`, `config_entry`, `entities`
and `listeners` fields are host wiring with no role in the verified
operations.) -/
structure MiniServer where
  lox_config : Option LoxConfig
  api : Option Api
  callback : Option Nat
  deriving Repr

/-- `MiniServer.__init__`: every slot starts as `None`. -/
def initMiniServer : MiniServer :=
  { lox_config := Option.none, api := Option.none, callback := Option.none }

/-- `self.lox_config.json` as an exception-raising read: `AttributeError`
when `lox_config` is still `None`, `TypeError` downstream when `json` is
still `None` (subscripting `None` in the accessors raises `TypeError`;
surfacing it here keeps the accessor bodies a plain chain of lookups). -/
def jsonOf (s : MiniServer) : Except PyExc JsonValue :=
  match s.lox_config with
  | Option.none => .error .attributeError
  | some c =>
    match c.json with
    | Option.none => .error .typeError
    | some j => .ok j

/-- Body of the `serial` property before the catch-all `except`:
`self.lox_config.json['msInfo']['serialNr']`. -/
def serialRaw (s : MiniServer) : Except PyExc JsonValue := do
  let j ← jsonOf s
  let m ← pyIndex j "msInfo"
  pyIndex m "serialNr"

/-- The `serial` property: the raw lookup with every exception suppressed to
`None` by the bare `except`. -/
def serial (s : MiniServer) : Option JsonValue :=
  (serialRaw s).toOption

/-- Body of the `name` property before the catch-all `except`:
`self.lox_config.json['msInfo']['msName']`. -/
def nameRaw (s : MiniServer) : Except PyExc JsonValue := do
  let j ← jsonOf s
  let m ← pyIndex j "msInfo"
  pyIndex m "msName"

/-- The `name` property: the raw lookup with every exception suppressed to
`None`. -/
def name (s : MiniServer) : Option JsonValue :=
  (nameRaw s).toOption

/-- Body of the `software_version` property before the catch-all `except`:
`".".join([str(x) for x in self.lox_config.json['softwareVersion']])`. -/
def software_versionRaw (s : MiniServer) : Except PyExc JsonValue := do
  let j ← jsonOf s
  let v ← pyIndex j "softwareVersion"
  let elems ← pyIterate v
  return .str (String.intercalate "." (elems.map jsonStr))

/-- The `software_version` property: the raw computation with every
exception suppressed to `None`. -/
def software_version (s : MiniServer) : Option JsonValue :=
  (software_versionRaw s).toOption

/-- Body of the `miniserver_type` property before the catch-all `except`:
`self.lox_config.json['msInfo']['miniserverType']`. -/
def miniserver_typeRaw (s : MiniServer) : Except PyExc JsonValue := do
  let j ← jsonOf s
  let m ← pyIndex j "msInfo"
  pyIndex m "miniserverType"

/-- The `miniserver_type` property: the raw lookup with every exception
suppressed to `None`.  Note that it returns the raw value found in the
document, not a classified label. -/
def miniserver_type (s : MiniServer) : Option JsonValue :=
  (miniserver_typeRaw s).toOption

/-- Modelled from the spec: `get_miniserver_type` (in the repository's
`helpers` module, not part of the verified sources) classifies the integer
model code through a fixed enumerated mapping of known codes; unknown codes
(and non-integer arguments) map to a generic fallback label rather than
failing.  The spec fixes the shape of the mapping, not its table; a
representative table is used here. -/
def get_miniserver_type (t : Option JsonValue) : String :=
  match t with
  | some (.int 0) => "Miniserver Gen 1"
  | some (.int 1) => "Miniserver Go"
  | some (.int 2) => "Miniserver"
  | _ => "Unknown type"

/-- The `model` field of the miniserver entry registered by
`async_update_device_registry`: `get_miniserver_type(self.miniserver_type)`. -/
def deviceRegistryModel (s : MiniServer) : String :=
  get_miniserver_type (miniserver_type s)

/-- `shutdown`: `await self.api.stop()`.  Attribute access on a `None`
transport handle raises `AttributeError`; otherwise the transport's stop
runs (its diagnostic return value is only logged). -/
def shutdown (s : MiniServer) : Except PyExc Unit :=
  match s.api with
  | Option.none => .error .attributeError
  | some _ => .ok ()

/-- `stop_loxone`: `_ = await self.api.stop()` followed by a debug log.
Same guard structure as `shutdown`. -/
def stop_loxone (s : MiniServer) : Except PyExc Unit :=
  match s.api with
  | Option.none => .error .attributeError
  | some _ => .ok ()

/-- `async_set_callback`: `self.api.message_call_back = message_callback`.
Raises `AttributeError` when no transport was constructed; otherwise stores
the callback in the transport's slot. -/
def async_set_callback (s : MiniServer) (cb : Nat) : Except PyExc MiniServer :=
  match s.api with
  | Option.none => .error .attributeError
  | some a => .ok { s with api := some { a with message_call_back := some cb } }

/-- `async_setup`.  The two external awaits are passed in as outcomes:
`fetch` is the result of `self.lox_config.getJson()` (its status code,
which the fetch layer may return as a number or a string, together with the
structure document it stores in `lox_config.json`), and `initRes` is the
result of `self.api.async_init()`.  The `try` block catches only
`ConnectionError`; every other exception propagates.  On a successful
status check the transport handle is constructed before `async_init` runs,
so `api` is set even when initialization then fails. -/
def async_setup (s : MiniServer) (fetch : Except PyExc (PyVal × JsonValue))
    (initRes : Except PyExc PyVal) : MiniServer × Except PyExc Bool :=
  let s1 : MiniServer := { s with lox_config := some { json := Option.none } }
  match fetch with
  | .error .connectionError => (s1, .ok false)
  | .error e => (s1, .error e)
  | .ok (code, doc) =>
    let s2 : MiniServer := { s1 with lox_config := some { json := some doc } }
    if pyEqIntLit code 200 || pyEqStrLit code "200" then
      let s3 : MiniServer := { s2 with api := some {} }
      match initRes with
      | .error .connectionError => (s3, .ok false)
      | .error e => (s3, .error e)
      | .ok res =>
        if (!pyTruthy res) || pyEqIntLit res (-1) then (s3, .ok false)
        else (s3, .ok true)
    else (s2, .ok false)

/-- A transport send call, as recorded on the trace:
`send_websocket_command(device_uuid, value)` or
`send_secured__websocket_command(device_uuid, value, code)`. -/
inductive Call where
  | plain (uuid value : PyVal)
  | secured (uuid value code : PyVal)
  deriving Repr

/-- A bus event as seen by `listen_loxone_send`: its `event_type` string
and its `data` payload. -/
structure Event where
  event_type : String
  data : PyVal

/-- One transport send: `await self.api.send...`.  Attribute access on a
`None` transport handle raises `AttributeError` before any call is made;
otherwise the call is recorded on the trace and the transport's behaviour
`f` (which exception, if any, the awaited send raises) decides the
outcome. -/
def sendCall (s : MiniServer) (f : Call → Option PyExc) (c : Call) :
    List Call × Except PyExc Unit :=
  match s.api with
  | Option.none => ([], .error .attributeError)
  | some _ =>
    match f c with
    | Option.none => ([c], .ok ())
    | some e => ([c], .error e)

/-- Body of `listen_loxone_send` before the `except ValueError` guard: on a
`SENDDOMAIN` event with a dict payload, extract `(value, uuid)` with the
`DEFAULT` sentinel and make one plain send; on a `SECUREDSENDDOMAIN` event
with a dict payload, extract `(value, uuid, code)` and make one secured
send; otherwise do nothing. -/
def listenBody (s : MiniServer) (f : Call → Option PyExc) (ev : Event) :
    List Call × Except PyExc Unit :=
  match ev.data with
  | .dict kvs =>
    if ev.event_type == SENDDOMAIN then
      sendCall s f (.plain (dictGet kvs ATTR_UUID DEFAULT) (dictGet kvs ATTR_VALUE DEFAULT))
    else if ev.event_type == SECUREDSENDDOMAIN then
      sendCall s f
        (.secured (dictGet kvs ATTR_UUID DEFAULT) (dictGet kvs ATTR_VALUE DEFAULT)
          (dictGet kvs ATTR_CODE DEFAULT))
    else ([], .ok ())
  | _ => ([], .ok ())

/-- `listen_loxone_send`: the body wrapped in `except ValueError`, which
prints a traceback and drops the event; any other exception propagates. -/
def listen_loxone_send (s : MiniServer) (f : Call → Option PyExc) (ev : Event) :
    List Call × Except PyExc Unit :=
  match listenBody s f ev with
  | (t, .error .valueError) => (t, .ok ())
  | r => r

/-- `handle_websocket_command`: the host-service entry point.  A service
call's `data` is a dict; extract `(value, uuid)` with the `DEFAULT`
sentinel and make one plain send.  No exception guard. -/
def handle_websocket_command (s : MiniServer) (f : Call → Option PyExc)
    (data : List (String × PyVal)) : List Call × Except PyExc Unit :=
  sendCall s f (.plain (dictGet data ATTR_UUID DEFAULT) (dictGet data ATTR_VALUE DEFAULT))

/-- A `MiniServer` holding a fetched structure document `doc`, as after a
successful `getJson`. -/
def mkState (doc : JsonValue) : MiniServer :=
  { lox_config := some { json := some doc }, api := Option.none, callback := Option.none }

/-- A `MiniServer` whose transport handle has been constructed, as after a
successful `async_setup`. -/
def srv1 : MiniServer :=
  { initMiniServer with api := some {} }

/-- A transport behaviour under which every awaited send raises
`ValueError`. -/
def fVE : Call → Option PyExc := fun _ => some PyExc.valueError

/-- A plain-command payload `{uuid: "abc", value: "on"}`. -/
def kvs1 : List (String × PyVal) := [("uuid", .str "abc"), ("value", .str "on")]

/-- A secured-command payload `{uuid: "abc", value: "on", code: "1234"}`. -/
def kvsSec : List (String × PyVal) :=
  [("uuid", .str "abc"), ("value", .str "on"), ("code", .str "1234")]

/-- A service-call payload `{uuid: "abc", value: "off"}`. -/
def kvs2 : List (String × PyVal) := [("uuid", .str "abc"), ("value", .str "off")]

/-- Claim C1: `async_setup` returns `Except.ok false` (failure, not an
exception) when the fetched status code is neither `200` nor `"200"`, when
the fetch raises a connection-level error, or when transport
initialization returns a falsy or `-1` sentinel; it returns `Except.ok
true` exactly when the status code equals `200` or `"200"` and
initialization returns a non-falsy, non-`-1` result. -/
theorem async_setup_result (s : MiniServer) (fetch : Except PyExc (PyVal × JsonValue))
    (initRes : Except PyExc PyVal) :
    ((async_setup s fetch initRes).2 = Except.ok true ↔
      ∃ code doc res, fetch = Except.ok (code, doc) ∧
        (pyEqIntLit code 200 || pyEqStrLit code "200") = true ∧
        initRes = Except.ok res ∧ pyTruthy res = true ∧ pyEqIntLit res (-1) = false)
    ∧ (fetch = Except.error PyExc.connectionError →
        (async_setup s fetch initRes).2 = Except.ok false)
    ∧ (∀ code doc, fetch = Except.ok (code, doc) →
        (pyEqIntLit code 200 || pyEqStrLit code "200") = false →
        (async_setup s fetch initRes).2 = Except.ok false)
    ∧ (∀ code doc res, fetch = Except.ok (code, doc) →
        (pyEqIntLit code 200 || pyEqStrLit code "200") = true →
        initRes = Except.ok res → ((!pyTruthy res) || pyEqIntLit res (-1)) = true →
        (async_setup s fetch initRes).2 = Except.ok false) := by
  refine ⟨?_, ?_, ?_, ?_⟩
  · constructor
    · intro h
      match fetch with
      | .error e => cases e <;> simp [async_setup] at h
      | .ok (code, doc) =>
        by_cases hc : (pyEqIntLit code 200 || pyEqStrLit code "200") = true
        · match initRes with
          | .error e => cases e <;> simp [async_setup, hc] at h
          | .ok res =>
            by_cases hr : ((!pyTruthy res) || pyEqIntLit res (-1)) = true
            · simp [async_setup, hc, hr] at h
            · have ht : pyTruthy res = true := by
                cases hpt : pyTruthy res
                · exact absurd (by simp [hpt]) hr
                · rfl
              have hm : pyEqIntLit res (-1) = false := by
                cases hpm : pyEqIntLit res (-1)
                · rfl
                · exact absurd (by simp [hpm]) hr
              exact ⟨code, doc, res, rfl, hc, rfl, ht, hm⟩
        · simp [async_setup, hc] at h
    · rintro ⟨code, doc, res, rfl, hc, rfl, ht, hm⟩
      simp [async_setup, hc, ht, hm]
  · rintro rfl
    simp [async_setup]
  · rintro code doc rfl hc
    simp [async_setup, hc]
  · rintro code doc res rfl hc rfl hr
    simp [async_setup, hc, hr]

/-- Witness for C1: concrete runs through each branch of
`async_setup_result` — a connection error, a 404 status, a `-1`
initialization sentinel, and a fully successful setup. -/
theorem async_setup_result_witness :
    (async_setup initMiniServer (Except.error PyExc.connectionError)
      (Except.ok (PyVal.bool true))).2 = Except.ok false ∧
    (async_setup initMiniServer (Except.ok (PyVal.int 404, JsonValue.null))
      (Except.ok (PyVal.bool true))).2 = Except.ok false ∧
    (async_setup initMiniServer (Except.ok (PyVal.int 200, JsonValue.null))
      (Except.ok (PyVal.int (-1)))).2 = Except.ok false ∧
    (async_setup initMiniServer (Except.ok (PyVal.str "200", JsonValue.null))
      (Except.ok (PyVal.bool true))).2 = Except.ok true :=
  ⟨(async_setup_result initMiniServer _ _).2.1 rfl,
   (async_setup_result initMiniServer _ _).2.2.1 _ _ rfl rfl,
   (async_setup_result initMiniServer _ _).2.2.2 _ _ _ rfl rfl rfl rfl,
   (async_setup_result initMiniServer _ _).1.mpr ⟨_, _, _, rfl, rfl, rfl, rfl, rfl⟩⟩

/-- Counterexample to C2 as stated: on a fresh `MiniServer` (no transport
ever constructed) the stop operation raises `AttributeError` instead of
being a guarded no-op. -/
theorem stop_loxone_before_setup_raises :
    stop_loxone initMiniServer = Except.error PyExc.attributeError := rfl

/-- Claim C2 (amended): the stop operations (`stop_loxone` and `shutdown`)
are guarded only by the transport handle: when `api` is still `None` they
raise `AttributeError`, and once a transport exists they forward to the
transport's stop and may be called repeatedly (the miniserver state is not
mutated, so a second call behaves identically). -/
theorem stop_guarded_only_by_transport (s : MiniServer) :
    (s.api = Option.none →
      stop_loxone s = Except.error PyExc.attributeError ∧
      shutdown s = Except.error PyExc.attributeError)
    ∧ (∀ a, s.api = some a → stop_loxone s = Except.ok () ∧ shutdown s = Except.ok ()) := by
  refine ⟨fun h => ?_, fun a h => ?_⟩ <;>
    simp [stop_loxone, shutdown, h]

/-- Witness for C2 (amended): with a constructed transport both stop
operations succeed, and doing so twice is the same two successful calls. -/
theorem stop_guarded_only_by_transport_witness :
    stop_loxone srv1 = Except.ok () ∧ shutdown srv1 = Except.ok () :=
  (stop_guarded_only_by_transport srv1).2 ⟨Option.none⟩ rfl

/-- Claim C3: the four identity accessors degrade to `None` and never
raise: on a state with no config object at all every accessor is `None`,
and whenever the underlying lookup chain raises (any exception), the
catch-all guard turns the result into `None`. -/
theorem identity_accessors_absent_on_failure (s : MiniServer) :
    (s.lox_config = Option.none →
      serial s = Option.none ∧ name s = Option.none ∧
      software_version s = Option.none ∧ miniserver_type s = Option.none)
    ∧ (∀ e, serialRaw s = Except.error e → serial s = Option.none)
    ∧ (∀ e, nameRaw s = Except.error e → name s = Option.none)
    ∧ (∀ e, software_versionRaw s = Except.error e → software_version s = Option.none)
    ∧ (∀ e, miniserver_typeRaw s = Except.error e → miniserver_type s = Option.none) := by
  refine ⟨?_, ?_, ?_, ?_, ?_⟩
  · intro h
    obtain ⟨lc, a, cb⟩ := s
    simp only at h
    subst h
    exact ⟨rfl, rfl, rfl, rfl⟩
  · intro e h
    unfold serial
    rw [h]
    rfl
  · intro e h
    unfold name
    rw [h]
    rfl
  · intro e h
    unfold software_version
    rw [h]
    rfl
  · intro e h
    unfold miniserver_type
    rw [h]
    rfl

/-- Witness for C3: on a freshly initialized `MiniServer` (no structure
document was ever fetched) all four accessors return `None`. -/
theorem identity_accessors_absent_on_failure_witness :
    serial initMiniServer = Option.none ∧ name initMiniServer = Option.none ∧
    software_version initMiniServer = Option.none ∧
    miniserver_type initMiniServer = Option.none :=
  (identity_accessors_absent_on_failure initMiniServer).1 rfl

/-- Counterexample to C10 as stated: the contrast "unlike stop, no guard
exists" fails — the stop path is equally unguarded.  On a fresh
`MiniServer`, callback registration and `shutdown` both raise
`AttributeError`. -/
theorem set_callback_and_stop_both_unguarded :
    async_set_callback initMiniServer 0 = Except.error PyExc.attributeError ∧
    shutdown initMiniServer = Except.error PyExc.attributeError :=
  ⟨rfl, rfl⟩

/-- Claim C10 (amended): registering an inbound-message callback before a
successful setup (transport handle still `None`) raises `AttributeError`
and stores nothing — a successful setup is an unstated precondition of
callback registration, exactly as it is for the (equally unguarded) stop
operations; with a transport present the callback is stored in the
transport's slot. -/
theorem async_set_callback_requires_transport (s : MiniServer) (cb : Nat) :
    (s.api = Option.none →
      async_set_callback s cb = Except.error PyExc.attributeError)
    ∧ (∀ a, s.api = some a →
        async_set_callback s cb =
          Except.ok { s with api := some { a with message_call_back := some cb } }) := by
  refine ⟨fun h => ?_, fun a h => ?_⟩ <;>
    simp [async_set_callback, h]

/-- Witness for C10 (amended): on a fresh `MiniServer` callback
registration raises `AttributeError`; on a set-up one it stores the
callback. -/
theorem async_set_callback_requires_transport_witness :
    async_set_callback initMiniServer 7 = Except.error PyExc.attributeError ∧
    async_set_callback srv1 7 =
      Except.ok { srv1 with api := some { message_call_back := some 7 } } :=
  ⟨(async_set_callback_requires_transport initMiniServer 7).1 rfl,
   (async_set_callback_requires_transport srv1 7).2 ⟨Option.none⟩ rfl⟩

/-- Claim C5: the outbound handler never lets a `ValueError` escape: its
result is never that exception, and whenever the body raises `ValueError`
the handler returns normally with the calls made so far (the event is
dropped, so the bridge's subscription survives for subsequent events). -/
theorem listen_loxone_send_catches_value_errors (s : MiniServer)
    (f : Call → Option PyExc) (ev : Event) :
    (listen_loxone_send s f ev).2 ≠ Except.error PyExc.valueError
    ∧ ((listenBody s f ev).2 = Except.error PyExc.valueError →
        listen_loxone_send s f ev = ((listenBody s f ev).1, Except.ok ())) := by
  rcases hp : listenBody s f ev with ⟨t, r⟩
  unfold listen_loxone_send
  rw [hp]
  constructor
  · cases r with
    | ok v => simp
    | error e => cases e <;> simp
  · intro h
    simp only at h
    subst h
    rfl

/-- Witness for C5: with a transport that raises `ValueError` on every
send, a plain-command event is dropped — the handler returns normally
after the attempted call. -/
theorem listen_loxone_send_catches_value_errors_witness :
    listen_loxone_send srv1 fVE { event_type := SENDDOMAIN, data := .dict kvs1 } =
      ((listenBody srv1 fVE { event_type := SENDDOMAIN, data := .dict kvs1 }).1,
        Except.ok ()) :=
  (listen_loxone_send_catches_value_errors srv1 fVE _).2 rfl

/-- Claim C6: a `SENDDOMAIN` event with a dict payload produces exactly one
plain send call, carrying `(deviceId, value)` extracted from the payload
with the `DEFAULT` sentinel substituted for absent fields. -/
theorem plain_command_single_send (s : MiniServer) (a : Api)
    (f : Call → Option PyExc) (kvs : List (String × PyVal))
    (hapi : s.api = some a) (hf : ∀ c, f c = Option.none) :
    listen_loxone_send s f { event_type := SENDDOMAIN, data := .dict kvs } =
      ([Call.plain (dictGet kvs ATTR_UUID DEFAULT) (dictGet kvs ATTR_VALUE DEFAULT)],
        Except.ok ()) := by
  simp [listen_loxone_send, listenBody, sendCall, hapi, hf]

/-- Witness for C6: `PlainCommand{deviceId:"abc", value:"on"}` yields
exactly one `sendPlain("abc","on")` call. -/
theorem plain_command_single_send_witness :
    listen_loxone_send srv1 (fun _ => Option.none)
      { event_type := SENDDOMAIN, data := .dict kvs1 } =
      ([Call.plain (PyVal.str "abc") (PyVal.str "on")], Except.ok ()) :=
  plain_command_single_send srv1 ⟨Option.none⟩ _ kvs1 rfl (fun _ => rfl)

/-- Claim C7: a `SECUREDSENDDOMAIN` event with a dict payload produces
exactly one secured send call, carrying `(deviceId, value, code)` extracted
from the payload with the `DEFAULT` sentinel substituted for absent
fields. -/
theorem secured_command_single_send (s : MiniServer) (a : Api)
    (f : Call → Option PyExc) (kvs : List (String × PyVal))
    (hapi : s.api = some a) (hf : ∀ c, f c = Option.none) :
    listen_loxone_send s f { event_type := SECUREDSENDDOMAIN, data := .dict kvs } =
      ([Call.secured (dictGet kvs ATTR_UUID DEFAULT) (dictGet kvs ATTR_VALUE DEFAULT)
          (dictGet kvs ATTR_CODE DEFAULT)], Except.ok ()) := by
  have hne : (SECUREDSENDDOMAIN == SENDDOMAIN) = false := by decide
  simp [listen_loxone_send, listenBody, sendCall, hapi, hf, hne]

/-- Witness for C7: `SecuredCommand{deviceId:"abc", value:"on",
code:"1234"}` yields exactly one `sendSecured("abc","on","1234")` call. -/
theorem secured_command_single_send_witness :
    listen_loxone_send srv1 (fun _ => Option.none)
      { event_type := SECUREDSENDDOMAIN, data := .dict kvsSec } =
      ([Call.secured (PyVal.str "abc") (PyVal.str "on") (PyVal.str "1234")],
        Except.ok ()) :=
  secured_command_single_send srv1 ⟨Option.none⟩ _ kvsSec rfl (fun _ => rfl)

/-- Claim C8: the host-service entry point `handle_websocket_command` makes
the same extraction and the same plain-send call as the equivalent
`SENDDOMAIN` bus event: the transport-call traces agree for every payload,
and when the transport's sends do not raise the two entry points behave
identically. -/
theorem service_call_equiv_plain_event (s : MiniServer)
    (f : Call → Option PyExc) (kvs : List (String × PyVal)) :
    (handle_websocket_command s f kvs).1 =
      (listen_loxone_send s f { event_type := SENDDOMAIN, data := .dict kvs }).1
    ∧ ((∀ c, f c = Option.none) →
        handle_websocket_command s f kvs =
          listen_loxone_send s f { event_type := SENDDOMAIN, data := .dict kvs }) := by
  constructor
  · cases hapi : s.api with
    | none => simp [handle_websocket_command, listen_loxone_send, listenBody, sendCall, hapi]
    | some a =>
      cases hfc : f (.plain (dictGet kvs ATTR_UUID DEFAULT) (dictGet kvs ATTR_VALUE DEFAULT)) with
      | none =>
        simp [handle_websocket_command, listen_loxone_send, listenBody, sendCall, hapi, hfc]
      | some e =>
        cases e <;>
          simp [handle_websocket_command, listen_loxone_send, listenBody, sendCall, hapi, hfc]
  · intro hf
    cases hapi : s.api with
    | none => simp [handle_websocket_command, listen_loxone_send, listenBody, sendCall, hapi]
    | some a => simp [handle_websocket_command, listen_loxone_send, listenBody, sendCall, hapi, hf]

/-- Witness for C8: the service call with payload `{deviceId:"abc",
value:"off"}` produces the same transport call as the equivalent
`PlainCommand` event. -/
theorem service_call_equiv_plain_event_witness :
    handle_websocket_command srv1 (fun _ => Option.none) kvs2 =
      listen_loxone_send srv1 (fun _ => Option.none)
        { event_type := SENDDOMAIN, data := .dict kvs2 } :=
  (service_call_equiv_plain_event srv1 _ kvs2).2 (fun _ => rfl)

/-- Claim C9: when the structure document's `softwareVersion` entry is a
list of integer components, `software_version` returns the components'
decimal strings joined with `"."`. -/
theorem software_version_dot_joined (kvs : List (String × JsonValue)) (xs : List Int)
    (h : pyIndex (.obj kvs) "softwareVersion" = Except.ok (.list (xs.map JsonValue.int))) :
    software_version (mkState (.obj kvs)) =
      some (.str (String.intercalate "." (xs.map toString))) := by
  simp [software_version, software_versionRaw, jsonOf, mkState, h, pyIterate,
    Except.toOption, List.map_map, Function.comp_def, jsonStr,
    Bind.bind, Except.bind, Functor.map, Except.map, Pure.pure, Except.pure]

/-- Witness for C9: components `[10, 3, 2]` produce `"10.3.2"`. -/
theorem software_version_dot_joined_witness :
    software_version (mkState (JsonValue.obj
      [("softwareVersion", JsonValue.list [.int 10, .int 3, .int 2])])) =
      some (JsonValue.str "10.3.2") :=
  software_version_dot_joined
    [("softwareVersion", JsonValue.list [.int 10, .int 3, .int 2])] [10, 3, 2] rfl

/-- Counterexample to C4 as stated: on a document whose
`msInfo.miniserverType` is the model code `2`, the `miniserver_type`
accessor returns the raw integer `2` itself — not the classified label
(which is a string). -/
theorem miniserver_type_returns_raw_code :
    miniserver_type (mkState (JsonValue.obj
      [("msInfo", JsonValue.obj [("miniserverType", JsonValue.int 2)])])) =
      some (JsonValue.int 2) ∧
    JsonValue.int 2 ≠ JsonValue.str (get_miniserver_type (some (JsonValue.int 2))) :=
  ⟨rfl, by simp⟩

/-- Claim C4 (amended): the `miniserver_type` accessor returns the raw
integer at `document["msInfo"]["miniserverType"]` (`None` on failure); the
classified label is produced when updating the device registry, by mapping
the accessor's result through the fixed `get_miniserver_type` enumeration,
which sends unknown codes to a generic fallback label rather than
failing. -/
theorem miniserver_type_classified_at_registry (kvs m : List (String × JsonValue))
    (c : Int)
    (h1 : pyIndex (.obj kvs) "msInfo" = Except.ok (.obj m))
    (h2 : pyIndex (.obj m) "miniserverType" = Except.ok (.int c)) :
    miniserver_type (mkState (.obj kvs)) = some (.int c)
    ∧ deviceRegistryModel (mkState (.obj kvs)) = get_miniserver_type (some (.int c))
    ∧ (c ≠ 0 → c ≠ 1 → c ≠ 2 → get_miniserver_type (some (.int c)) = "Unknown type") := by
  have hacc : miniserver_type (mkState (.obj kvs)) = some (.int c) := by
    simp [miniserver_type, miniserver_typeRaw, jsonOf, mkState, h1, h2, Except.toOption,
      Bind.bind, Except.bind]
  refine ⟨hacc, ?_, ?_⟩
  · rw [deviceRegistryModel, hacc]
  · intro h0 h1' h2'
    simp only [get_miniserver_type]
    split <;> simp_all

/-- Witness for C4 (amended): the unknown model code `7` is read raw by the
accessor and classified to the fallback label at registry time. -/
theorem miniserver_type_classified_at_registry_witness :
    miniserver_type (mkState (JsonValue.obj
      [("msInfo", JsonValue.obj [("miniserverType", JsonValue.int 7)])])) =
      some (JsonValue.int 7) ∧
    deviceRegistryModel (mkState (JsonValue.obj
      [("msInfo", JsonValue.obj [("miniserverType", JsonValue.int 7)])])) =
      get_miniserver_type (some (JsonValue.int 7)) ∧
    get_miniserver_type (some (JsonValue.int 7)) = "Unknown type" := by
  have h := miniserver_type_classified_at_registry
    [("msInfo", JsonValue.obj [("miniserverType", JsonValue.int 7)])]
    [("miniserverType", JsonValue.int 7)] 7 rfl rfl
  exact ⟨h.1, h.2.1, h.2.2 (by decide) (by decide) (by decide)⟩

end PyLoxone
